import Mathlib

/-!
Verification of the Cockermouth running-shop financial model
(`src/cockermouth_running_shop_streamlit_dashboard_app.py`).

The core of the program is a straight-line arithmetic pipeline from an
assumptions record to revenue streams, gross profit, opex, operating
profit, a blended margin, breakeven sales and a 12-month seasonal
allocation of turnover.  Python floats are embedded as exact rationals
(`ℚ`); the `np.nan` sentinel used for the undefined blended margin and
breakeven sales is embedded as `Option.none`.
-/

namespace Cockermouth

/-- The assumptions record: one field per sidebar input of the app
(lines 85-119 of the source).  Integer-valued inputs (population,
tourist footfall, event weeks, service units) are carried as rationals
since they immediately enter real arithmetic. -/
structure Assumptions where
  pop : ℚ
  adult_share : ℚ
  run_share : ℚ
  pairs_per_runner : ℚ
  capture_local : ℚ
  asp_shoes : ℚ
  attach_apparel : ℚ
  tourist_footfall : ℚ
  tourist_conv : ℚ
  tourist_aov : ℚ
  num_events : ℚ
  event_sales : ℚ
  service_units : ℚ
  service_price : ℚ
  gm_shoes : ℚ
  gm_apparel : ℚ
  gm_tour : ℚ
  rent : ℚ
  staff : ℚ
  utilities : ℚ
  marketing : ℚ
  misc : ℚ
  other : ℚ
  summer_uplift : ℚ
  shoulder_uplift : ℚ
deriving DecidableEq

/-- `adults = pop * adult_share` (source line 122). -/
def adults (a : Assumptions) : ℚ := a.pop * a.adult_share

/-- `runners = adults * run_share` (source line 123). -/
def runners (a : Assumptions) : ℚ := adults a * a.run_share

/-- `local_pairs = runners * pairs_per_runner` (source line 124). -/
def local_pairs (a : Assumptions) : ℚ := runners a * a.pairs_per_runner

/-- `local_pairs_captured = local_pairs * capture_local` (source line 125). -/
def local_pairs_captured (a : Assumptions) : ℚ := local_pairs a * a.capture_local

/-- `rev_local_shoes = local_pairs_captured * asp_shoes` (source line 126). -/
def rev_local_shoes (a : Assumptions) : ℚ := local_pairs_captured a * a.asp_shoes

/-- `rev_local_apparel = rev_local_shoes * attach_apparel` (source line 127). -/
def rev_local_apparel (a : Assumptions) : ℚ := rev_local_shoes a * a.attach_apparel

/-- `rev_tourist_core = tourist_footfall * tourist_conv * tourist_aov` (source line 128). -/
def rev_tourist_core (a : Assumptions) : ℚ := a.tourist_footfall * a.tourist_conv * a.tourist_aov

/-- `rev_events = num_events * event_sales` (source line 129). -/
def rev_events (a : Assumptions) : ℚ := a.num_events * a.event_sales

/-- `rev_services = service_units * service_price` (source line 130). -/
def rev_services (a : Assumptions) : ℚ := a.service_units * a.service_price

/-- `turnover` is the sum of the five revenue streams (source line 132). -/
def turnover (a : Assumptions) : ℚ :=
  rev_local_shoes a + rev_local_apparel a + rev_tourist_core a + rev_events a + rev_services a

/-- `gp_shoes = rev_local_shoes * gm_shoes` (source line 135). -/
def gp_shoes (a : Assumptions) : ℚ := rev_local_shoes a * a.gm_shoes

/-- `gp_apparel = rev_local_apparel * gm_apparel` (source line 136). -/
def gp_apparel (a : Assumptions) : ℚ := rev_local_apparel a * a.gm_apparel

/-- `gp_tour = (rev_tourist_core + rev_events) * gm_tour` (source line 137). -/
def gp_tour (a : Assumptions) : ℚ := (rev_tourist_core a + rev_events a) * a.gm_tour

/-- `gp_services = rev_services` — the fixed 100% service-margin convention
(source line 138, "assume labour is counted in staff"). -/
def gp_services (a : Assumptions) : ℚ := rev_services a

/-- `gp_total` is the sum of the four gross-profit components (source line 140). -/
def gp_total (a : Assumptions) : ℚ :=
  gp_shoes a + gp_apparel a + gp_tour a + gp_services a

/-- `opex = rent + staff + utilities + marketing + misc + other` (source line 143). -/
def opex (a : Assumptions) : ℚ :=
  a.rent + a.staff + a.utilities + a.marketing + a.misc + a.other

/-- `op = gp_total - opex`, the operating profit (source line 144). -/
def op (a : Assumptions) : ℚ := gp_total a - opex a

/-- Blended gross-margin fraction (source lines 147-150):
`gp_total / turnover` when `turnover > 0`, otherwise the `np.nan`
sentinel, embedded as `none`. -/
def gp_pct (a : Assumptions) : Option ℚ :=
  if 0 < turnover a then some (gp_total a / turnover a) else none

/-- Breakeven sales (source line 152):
`opex / gp_pct` when `gp_pct` is truthy and `> 0`, otherwise `np.nan`.
In Python, `nan` is truthy but `nan > 0` is false, and `0.0` is falsy,
so the branch is taken exactly when `gp_pct` is a number strictly
greater than zero. -/
def be_sales (a : Assumptions) : Option ℚ :=
  match gp_pct a with
  | some g => if 0 < g then some (opex a / g) else none
  | none => none

/-- The shared `defaults` record (source lines 28-54). -/
def defaults : Assumptions where
  pop := 8860
  adult_share := 0.80
  run_share := 0.30
  pairs_per_runner := 0.70
  capture_local := 0.40
  asp_shoes := 130.0
  attach_apparel := 0.40
  tourist_footfall := 8000
  tourist_conv := 0.020
  tourist_aov := 125.0
  num_events := 2
  event_sales := 6000.0
  service_units := 400
  service_price := 10.0
  gm_shoes := 0.43
  gm_apparel := 0.52
  gm_tour := 0.45
  rent := 29000.0
  staff := 15000.0
  utilities := 7000.0
  marketing := 8000.0
  misc := 5000.0
  other := 0.0
  summer_uplift := 0.25
  shoulder_uplift := 0.10

/-- The "Conservative" preset: the defaults with seven fields overridden
(source lines 57-65, `{**defaults, **dict(...)}`). -/
def conservative : Assumptions :=
  { defaults with
    capture_local := 0.30
    tourist_footfall := 6000
    tourist_conv := 0.015
    num_events := 1
    event_sales := 5000.0
    staff := 12000.0
    marketing := 6000.0 }

/-- The "Stretch" preset: the defaults with seven fields overridden
(source lines 67-75). -/
def stretch : Assumptions :=
  { defaults with
    capture_local := 0.55
    tourist_footfall := 10000
    tourist_conv := 0.025
    num_events := 3
    event_sales := 8000.0
    staff := 20000.0
    marketing := 10000.0 }

/-- The preset catalog (source lines 56-76): three named, complete
assumptions records in the order they appear in the source. -/
def presets : List (String × Assumptions) :=
  [("Conservative", conservative), ("Base", defaults), ("Stretch", stretch)]

/-- Seasonal weight vector (source lines 180-183): twelve entries
initialized to `1.0`; the May and September entries (indices 4 and 8,
`upl[[4, 8]]`) are multiplied by `1 + shoulder_uplift`; the June, July
and August entries (indices 5, 6, 7, `upl[5:8]`) are multiplied by
`1 + summer_uplift`.  The two index sets are disjoint, so the result of
the two in-place multiplications is the product of the two factors. -/
def upl (summer shoulder : ℚ) (i : Fin 12) : ℚ :=
  (if i.val = 4 ∨ i.val = 8 then 1 + shoulder else 1)
    * (if 5 ≤ i.val ∧ i.val ≤ 7 then 1 + summer else 1)

/-- `upl.sum()` (source line 184). -/
def uplSum (summer shoulder : ℚ) : ℚ := ∑ i : Fin 12, upl summer shoulder i

/-- `shares = upl / upl.sum()` (source line 184). -/
def shares (summer shoulder : ℚ) (i : Fin 12) : ℚ :=
  upl summer shoulder i / uplSum summer shoulder

/-- A month's turnover: `shares * turnover` (source line 186). -/
def monthTurnover (a : Assumptions) (i : Fin 12) : ℚ :=
  shares a.summer_uplift a.shoulder_uplift i * turnover a

/-- The results record: every scalar the core computes plus the twelve
monthly turnover values.  The sentinel-valued fields are `Option ℚ`. -/
structure Results where
  rev_local_shoes : ℚ
  rev_local_apparel : ℚ
  rev_tourist_core : ℚ
  rev_events : ℚ
  rev_services : ℚ
  turnover : ℚ
  gp_shoes : ℚ
  gp_apparel : ℚ
  gp_tour : ℚ
  gp_services : ℚ
  gp_total : ℚ
  opex : ℚ
  op : ℚ
  gp_pct : Option ℚ
  be_sales : Option ℚ
  monthly : Fin 12 → ℚ

/-- The full pipeline (source lines 122-152 and 180-186) bundled as one
function from assumptions to results. -/
def compute (a : Assumptions) : Results where
  rev_local_shoes := rev_local_shoes a
  rev_local_apparel := rev_local_apparel a
  rev_tourist_core := rev_tourist_core a
  rev_events := rev_events a
  rev_services := rev_services a
  turnover := turnover a
  gp_shoes := gp_shoes a
  gp_apparel := gp_apparel a
  gp_tour := gp_tour a
  gp_services := gp_services a
  gp_total := gp_total a
  opex := opex a
  op := op a
  gp_pct := gp_pct a
  be_sales := be_sales a
  monthly := monthTurnover a

/-- Each seasonal weight is strictly positive when both uplifts are
non-negative. -/
lemma upl_pos {summer shoulder : ℚ} (hsu : 0 ≤ summer) (hsh : 0 ≤ shoulder)
    (i : Fin 12) : 0 < upl summer shoulder i := by
  unfold upl
  have h1 : (0 : ℚ) < 1 + shoulder := by linarith
  have h2 : (0 : ℚ) < 1 + summer := by linarith
  split <;> split <;> simp_all

/-- The seasonal weight total is strictly positive when both uplifts are
non-negative. -/
lemma uplSum_pos {summer shoulder : ℚ} (hsu : 0 ≤ summer) (hsh : 0 ≤ shoulder) :
    0 < uplSum summer shoulder := by
  unfold uplSum
  exact Finset.sum_pos (fun i _ => upl_pos hsu hsh i) Finset.univ_nonempty

/-- The normalized shares sum to one when both uplifts are non-negative. -/
lemma shares_sum_one {summer shoulder : ℚ} (hsu : 0 ≤ summer) (hsh : 0 ≤ shoulder) :
    ∑ i : Fin 12, shares summer shoulder i = 1 := by
  unfold shares
  rw [← Finset.sum_div]
  exact div_self (ne_of_gt (uplSum_pos hsu hsh))

/-- With both uplifts zero every seasonal weight is `1`. -/
lemma upl_zero_zero (i : Fin 12) : upl 0 0 i = 1 := by
  unfold upl
  split <;> split <;> norm_num

/-- With both uplifts zero the weight total is `12`. -/
lemma uplSum_zero_zero : uplSum 0 0 = 12 := by
  unfold uplSum
  simp [upl_zero_zero]

/-- Insert a comma after every third character; applied to the reversed
digit list this models the thousands grouping of Python `,` formatting. -/
def chunk3 : List Char → List Char
  | a :: b :: c :: d :: rest => a :: b :: c :: ',' :: chunk3 (d :: rest)
  | l => l

/-- Decimal digits of `n` with commas every three digits from the right. -/
def groupDigits (n : ℕ) : String :=
  ⟨(chunk3 (Nat.toDigits 10 n).reverse).reverse⟩

/-- Round to the nearest integer, ties to even: the rounding Python `f`
formatting applies to an exactly representable value. -/
def roundHalfEven (x : ℚ) : ℤ :=
  if x - ⌊x⌋ < 1 / 2 then ⌊x⌋
  else if 1 / 2 < x - ⌊x⌋ then ⌊x⌋ + 1
  else if ⌊x⌋ % 2 = 0 then ⌊x⌋ else ⌊x⌋ + 1

/-- The currency formatter `fmt_gbp` (source lines 21-25), on a possibly
NaN value.  Python renders `f"£{x:,.0f}"` for `x = nan` as `"£nan"` and
raises no exception, so the `except` branch returning the em-dash is
reached only for non-numeric arguments, which the program never passes
to it. -/
def fmt_gbp : Option ℚ → String
  | some x =>
      let n := roundHalfEven x
      if n < 0 then "£-" ++ groupDigits n.natAbs else "£" ++ groupDigits n.natAbs
  | none => "£nan"

/-- Fixed-point formatting with one decimal place (`.1f`). -/
def fmtFixed1 (x : ℚ) : String :=
  let n := roundHalfEven (x * 10)
  (if n < 0 then "-" else "")
    ++ groupDigits (n.natAbs / 10) ++ "." ++ toString (n.natAbs % 10)

/-- The blended-margin fragment of the caption (source line 161):
`f"{gp_pct*100:.1f}%"` with no NaN guard.  When `gp_pct` is the NaN
sentinel, `nan * 100` is `nan` and `.1f` renders it as `"nan"`, so the
caption shows `"nan%"`. -/
def captionGpPct : Option ℚ → String
  | some g => fmtFixed1 (g * 100) ++ "%"
  | none => "nan%"

/-- The breakeven fragment of the caption (source line 161):
`fmt_gbp(be_sales) if not np.isnan(be_sales) else chr(0x2014)` — unlike
the margin fragment, this one is guarded and degrades to the em-dash. -/
def captionBreakeven : Option ℚ → String
  | some b => fmt_gbp (some b)
  | none => "—"

/-- The blended-margin row of the detailed table (source line 212):
`f"{gp_pct*100:.1f}%" if not np.isnan(gp_pct) else chr(0x2014)` — the
table, unlike the caption, guards the margin with an em-dash. -/
def tableGpPct : Option ℚ → String
  | some g => fmtFixed1 (g * 100) ++ "%"
  | none => "—"

/-- An assumptions record with every demand, tourist, event and service
input equal to zero (margins, costs and uplifts kept at the defaults). -/
def allZeroInputs : Assumptions :=
  { defaults with
    pop := 0
    adult_share := 0
    run_share := 0
    pairs_per_runner := 0
    capture_local := 0
    asp_shoes := 0
    attach_apparel := 0
    tourist_footfall := 0
    tourist_conv := 0
    tourist_aov := 0
    num_events := 0
    event_sales := 0
    service_units := 0
    service_price := 0 }

/-- A non-negative assumptions record with no revenue and one pound of
rent: its operating profit is negative. -/
def lossMaking : Assumptions :=
  { allZeroInputs with
    gm_shoes := 0
    gm_apparel := 0
    gm_tour := 0
    rent := 1
    staff := 0
    utilities := 0
    marketing := 0
    misc := 0
    other := 0
    summer_uplift := 0
    shoulder_uplift := 0 }

/-- The defaults with both seasonal uplifts set to zero. -/
def zeroUpl : Assumptions :=
  { defaults with summer_uplift := 0, shoulder_uplift := 0 }

/-- C1: for every assumptions record, turnover is the sum of the five
revenue streams, each derived by the documented chain. -/
theorem turnover_is_sum_of_streams (a : Assumptions) :
    turnover a
      = rev_local_shoes a + rev_local_apparel a + rev_tourist_core a
        + rev_events a + rev_services a
    ∧ rev_local_shoes a
      = a.pop * a.adult_share * a.run_share * a.pairs_per_runner
        * a.capture_local * a.asp_shoes
    ∧ rev_local_apparel a = rev_local_shoes a * a.attach_apparel
    ∧ rev_tourist_core a = a.tourist_footfall * a.tourist_conv * a.tourist_aov
    ∧ rev_events a = a.num_events * a.event_sales
    ∧ rev_services a = a.service_units * a.service_price := by
  refine ⟨rfl, ?_, rfl, rfl, rfl, rfl⟩
  simp only [rev_local_shoes, local_pairs_captured, local_pairs, runners, adults]

/-- C2: gross profit total is the sum of its four components, each with
its documented margin (services at the fixed 100% convention), and
operating profit is gross profit total minus opex, where opex is the sum
of the six cost fields. -/
theorem gp_total_and_operating_profit (a : Assumptions) :
    gp_total a = gp_shoes a + gp_apparel a + gp_tour a + gp_services a
    ∧ gp_shoes a = rev_local_shoes a * a.gm_shoes
    ∧ gp_apparel a = rev_local_apparel a * a.gm_apparel
    ∧ gp_tour a = (rev_tourist_core a + rev_events a) * a.gm_tour
    ∧ gp_services a = rev_services a
    ∧ op a = gp_total a - opex a
    ∧ opex a = a.rent + a.staff + a.utilities + a.marketing + a.misc + a.other :=
  ⟨rfl, rfl, rfl, rfl, rfl, rfl, rfl⟩

/-- C3: the blended margin is `gp_total / turnover` when turnover is
positive and the sentinel otherwise; breakeven sales is `opex / margin`
when the margin is a number strictly greater than zero and the sentinel
otherwise; with every demand, tourist, event and service input zero,
turnover is zero and both values are the sentinel (no exception, and
neither is zero since the sentinel is not a number). -/
theorem sentinel_margin_and_breakeven (a : Assumptions) :
    (0 < turnover a → gp_pct a = some (gp_total a / turnover a))
    ∧ (¬ 0 < turnover a → gp_pct a = none)
    ∧ (∀ g : ℚ, gp_pct a = some g → 0 < g → be_sales a = some (opex a / g))
    ∧ (∀ g : ℚ, gp_pct a = some g → ¬ 0 < g → be_sales a = none)
    ∧ (gp_pct a = none → be_sales a = none)
    ∧ ((a.pop = 0 ∧ a.adult_share = 0 ∧ a.run_share = 0 ∧ a.pairs_per_runner = 0
        ∧ a.capture_local = 0 ∧ a.asp_shoes = 0 ∧ a.attach_apparel = 0
        ∧ a.tourist_footfall = 0 ∧ a.tourist_conv = 0 ∧ a.tourist_aov = 0
        ∧ a.num_events = 0 ∧ a.event_sales = 0
        ∧ a.service_units = 0 ∧ a.service_price = 0) →
        turnover a = 0 ∧ gp_pct a = none ∧ be_sales a = none) := by
  refine ⟨?_, ?_, ?_, ?_, ?_, ?_⟩
  · intro h; simp [gp_pct, h]
  · intro h; simp [gp_pct, h]
  · intro g hg hpos; simp [be_sales, hg, hpos]
  · intro g hg hpos; simp [be_sales, hg, hpos]
  · intro h; simp [be_sales, h]
  · rintro ⟨h1, h2, h3, h4, h5, h6, h7, h8, h9, h10, h11, h12, h13, h14⟩
    have ht : turnover a = 0 := by
      simp [turnover, rev_local_shoes, rev_local_apparel, rev_tourist_core,
        rev_events, rev_services, local_pairs_captured, local_pairs, runners,
        adults, h1, h8, h11, h13]
    have hg : gp_pct a = none := by simp [gp_pct, ht]
    exact ⟨ht, hg, by simp [be_sales, hg]⟩

/-- Witness for C3 at the concrete all-zero-inputs record. -/
theorem sentinel_margin_and_breakeven_witness :
    turnover allZeroInputs = 0 ∧ gp_pct allZeroInputs = none
    ∧ be_sales allZeroInputs = none :=
  (sentinel_margin_and_breakeven allZeroInputs).2.2.2.2.2
    (by norm_num [allZeroInputs, defaults])

/-- C4: with the uplifts in their documented ranges the twelve
normalized seasonal shares sum to one, and with both uplifts zero every
month's turnover is one twelfth of the annual turnover. -/
theorem seasonal_allocation_normalized (a : Assumptions)
    (h1 : 0 ≤ a.summer_uplift) (_h2 : a.summer_uplift ≤ 0.75)
    (h3 : 0 ≤ a.shoulder_uplift) (_h4 : a.shoulder_uplift ≤ 0.50) :
    (∑ i : Fin 12, shares a.summer_uplift a.shoulder_uplift i = 1)
    ∧ (a.summer_uplift = 0 → a.shoulder_uplift = 0 →
        ∀ i : Fin 12, monthTurnover a i = turnover a / 12) := by
  refine ⟨shares_sum_one h1 h3, ?_⟩
  intro hsu hsh i
  unfold monthTurnover shares
  rw [hsu, hsh, upl_zero_zero, uplSum_zero_zero]
  ring

/-- Witness for C4 at the defaults with both uplifts set to zero. -/
theorem seasonal_allocation_normalized_witness :
    (0 ≤ zeroUpl.summer_uplift ∧ zeroUpl.summer_uplift ≤ 0.75
      ∧ 0 ≤ zeroUpl.shoulder_uplift ∧ zeroUpl.shoulder_uplift ≤ 0.50)
    ∧ ((∑ i : Fin 12, shares zeroUpl.summer_uplift zeroUpl.shoulder_uplift i = 1)
        ∧ (zeroUpl.summer_uplift = 0 → zeroUpl.shoulder_uplift = 0 →
            ∀ i : Fin 12, monthTurnover zeroUpl i = turnover zeroUpl / 12)) :=
  ⟨by norm_num [zeroUpl, defaults],
    seasonal_allocation_normalized zeroUpl (by norm_num [zeroUpl, defaults])
      (by norm_num [zeroUpl, defaults]) (by norm_num [zeroUpl, defaults])
      (by norm_num [zeroUpl, defaults])⟩

/-- C5 (code divergence): when every revenue input is zero the blended
margin is the NaN sentinel, yet the caption fragment of source line 161
renders it as "nan%", not as the em-dash; likewise the currency
formatter renders the NaN sentinel as "£nan", not as the em-dash.  The
guarded breakeven fragment of the same caption and the guarded table row
of source line 212 do produce the em-dash for the same sentinel. -/
theorem caption_renders_nan_for_undefined_margin :
    gp_pct allZeroInputs = none
    ∧ captionGpPct (gp_pct allZeroInputs) = "nan%"
    ∧ captionGpPct (gp_pct allZeroInputs) ≠ "—"
    ∧ fmt_gbp none = "£nan"
    ∧ fmt_gbp none ≠ "—"
    ∧ captionBreakeven (be_sales allZeroInputs) = "—"
    ∧ tableGpPct (gp_pct allZeroInputs) = "—" := by
  have ht : turnover allZeroInputs = 0 := by
    norm_num [turnover, rev_local_shoes, rev_local_apparel, rev_tourist_core,
      rev_events, rev_services, local_pairs_captured, local_pairs, runners,
      adults, allZeroInputs, defaults]
  have hg : gp_pct allZeroInputs = none := by simp [gp_pct, ht]
  have hb : be_sales allZeroInputs = none := by simp [be_sales, hg]
  refine ⟨hg, ?_, ?_, rfl, ?_, ?_, ?_⟩
  · rw [hg]; rfl
  · rw [hg]; decide
  · decide
  · rw [hb]; rfl
  · rw [hg]; rfl

/-- C6: the Base-preset defaults carry the documented input values and
the derivation chain evaluates to the documented intermediate values. -/
theorem base_defaults_chain :
    defaults.pop = 8860 ∧ defaults.adult_share = 0.80
    ∧ defaults.run_share = 0.30 ∧ defaults.pairs_per_runner = 0.70
    ∧ defaults.capture_local = 0.40 ∧ defaults.asp_shoes = 130.0
    ∧ defaults.attach_apparel = 0.40
    ∧ defaults.rent = 29000 ∧ defaults.staff = 15000
    ∧ defaults.utilities = 7000 ∧ defaults.marketing = 8000
    ∧ defaults.misc = 5000 ∧ defaults.other = 0
    ∧ adults defaults = 7088
    ∧ runners defaults = 2126.4
    ∧ local_pairs defaults = 1488.48
    ∧ local_pairs_captured defaults = 595.392
    ∧ rev_local_shoes defaults = 77400.96
    ∧ rev_local_apparel defaults = 30960.384
    ∧ opex defaults = 64000 := by
  norm_num [defaults, adults, runners, local_pairs, local_pairs_captured,
    rev_local_shoes, rev_local_apparel, opex]

/-- C7: the catalog holds exactly the three presets Conservative, Base,
Stretch; Base is the defaults record itself; Conservative and Stretch
agree with the defaults on every field other than capture_local,
tourist_footfall, tourist_conv, num_events, event_sales, staff and
marketing, and differ from the defaults on each of those seven. -/
theorem preset_catalog_structure :
    presets.length = 3
    ∧ presets.map Prod.fst = ["Conservative", "Base", "Stretch"]
    ∧ presets[1]? = some ("Base", defaults)
    ∧ conservative.pop = defaults.pop
    ∧ conservative.adult_share = defaults.adult_share
    ∧ conservative.run_share = defaults.run_share
    ∧ conservative.pairs_per_runner = defaults.pairs_per_runner
    ∧ conservative.asp_shoes = defaults.asp_shoes
    ∧ conservative.attach_apparel = defaults.attach_apparel
    ∧ conservative.tourist_aov = defaults.tourist_aov
    ∧ conservative.service_units = defaults.service_units
    ∧ conservative.service_price = defaults.service_price
    ∧ conservative.gm_shoes = defaults.gm_shoes
    ∧ conservative.gm_apparel = defaults.gm_apparel
    ∧ conservative.gm_tour = defaults.gm_tour
    ∧ conservative.rent = defaults.rent
    ∧ conservative.utilities = defaults.utilities
    ∧ conservative.misc = defaults.misc
    ∧ conservative.other = defaults.other
    ∧ conservative.summer_uplift = defaults.summer_uplift
    ∧ conservative.shoulder_uplift = defaults.shoulder_uplift
    ∧ conservative.capture_local ≠ defaults.capture_local
    ∧ conservative.tourist_footfall ≠ defaults.tourist_footfall
    ∧ conservative.tourist_conv ≠ defaults.tourist_conv
    ∧ conservative.num_events ≠ defaults.num_events
    ∧ conservative.event_sales ≠ defaults.event_sales
    ∧ conservative.staff ≠ defaults.staff
    ∧ conservative.marketing ≠ defaults.marketing
    ∧ stretch.pop = defaults.pop
    ∧ stretch.adult_share = defaults.adult_share
    ∧ stretch.run_share = defaults.run_share
    ∧ stretch.pairs_per_runner = defaults.pairs_per_runner
    ∧ stretch.asp_shoes = defaults.asp_shoes
    ∧ stretch.attach_apparel = defaults.attach_apparel
    ∧ stretch.tourist_aov = defaults.tourist_aov
    ∧ stretch.service_units = defaults.service_units
    ∧ stretch.service_price = defaults.service_price
    ∧ stretch.gm_shoes = defaults.gm_shoes
    ∧ stretch.gm_apparel = defaults.gm_apparel
    ∧ stretch.gm_tour = defaults.gm_tour
    ∧ stretch.rent = defaults.rent
    ∧ stretch.utilities = defaults.utilities
    ∧ stretch.misc = defaults.misc
    ∧ stretch.other = defaults.other
    ∧ stretch.summer_uplift = defaults.summer_uplift
    ∧ stretch.shoulder_uplift = defaults.shoulder_uplift
    ∧ stretch.capture_local ≠ defaults.capture_local
    ∧ stretch.tourist_footfall ≠ defaults.tourist_footfall
    ∧ stretch.tourist_conv ≠ defaults.tourist_conv
    ∧ stretch.num_events ≠ defaults.num_events
    ∧ stretch.event_sales ≠ defaults.event_sales
    ∧ stretch.staff ≠ defaults.staff
    ∧ stretch.marketing ≠ defaults.marketing := by
  norm_num [presets, conservative, stretch, defaults]

/-- All fields of an assumptions record are non-negative. -/
def Assumptions.Nonneg (a : Assumptions) : Prop :=
  0 ≤ a.pop ∧ 0 ≤ a.adult_share ∧ 0 ≤ a.run_share ∧ 0 ≤ a.pairs_per_runner
  ∧ 0 ≤ a.capture_local ∧ 0 ≤ a.asp_shoes ∧ 0 ≤ a.attach_apparel
  ∧ 0 ≤ a.tourist_footfall ∧ 0 ≤ a.tourist_conv ∧ 0 ≤ a.tourist_aov
  ∧ 0 ≤ a.num_events ∧ 0 ≤ a.event_sales
  ∧ 0 ≤ a.service_units ∧ 0 ≤ a.service_price
  ∧ 0 ≤ a.gm_shoes ∧ 0 ≤ a.gm_apparel ∧ 0 ≤ a.gm_tour
  ∧ 0 ≤ a.rent ∧ 0 ≤ a.staff ∧ 0 ≤ a.utilities ∧ 0 ≤ a.marketing
  ∧ 0 ≤ a.misc ∧ 0 ≤ a.other
  ∧ 0 ≤ a.summer_uplift ∧ 0 ≤ a.shoulder_uplift

/-- C8: with every assumption field non-negative, every monetary output
of the pipeline is non-negative — the five revenue streams, turnover,
the four gross-profit components, gross profit total, opex and all
twelve monthly turnover values — while operating profit can be negative,
witnessed by a non-negative record with no revenue and positive rent. -/
theorem monetary_outputs_nonneg (a : Assumptions) (h : a.Nonneg) :
    0 ≤ rev_local_shoes a ∧ 0 ≤ rev_local_apparel a ∧ 0 ≤ rev_tourist_core a
    ∧ 0 ≤ rev_events a ∧ 0 ≤ rev_services a ∧ 0 ≤ turnover a
    ∧ 0 ≤ gp_shoes a ∧ 0 ≤ gp_apparel a ∧ 0 ≤ gp_tour a ∧ 0 ≤ gp_services a
    ∧ 0 ≤ gp_total a ∧ 0 ≤ opex a
    ∧ (∀ i : Fin 12, 0 ≤ monthTurnover a i)
    ∧ (∃ b : Assumptions, b.Nonneg ∧ op b < 0) := by
  obtain ⟨hpop, hadult, hrun, hppr, hcap, hasp, hatt, htf, htc, hta, hnev,
    hes, hsu, hsp, hgs, hga, hgt, hrent, hstaff, hut, hmk, hmisc, hoth,
    hsummer, hshoulder⟩ := h
  have h1 : 0 ≤ rev_local_shoes a := by
    unfold rev_local_shoes local_pairs_captured local_pairs runners adults
    exact mul_nonneg (mul_nonneg (mul_nonneg (mul_nonneg
      (mul_nonneg hpop hadult) hrun) hppr) hcap) hasp
  have h2 : 0 ≤ rev_local_apparel a := by
    unfold rev_local_apparel; exact mul_nonneg h1 hatt
  have h3 : 0 ≤ rev_tourist_core a := by
    unfold rev_tourist_core; exact mul_nonneg (mul_nonneg htf htc) hta
  have h4 : 0 ≤ rev_events a := mul_nonneg hnev hes
  have h5 : 0 ≤ rev_services a := mul_nonneg hsu hsp
  have h6 : 0 ≤ turnover a := by unfold turnover; linarith
  have h7 : 0 ≤ gp_shoes a := mul_nonneg h1 hgs
  have h8 : 0 ≤ gp_apparel a := mul_nonneg h2 hga
  have h9 : 0 ≤ gp_tour a := mul_nonneg (add_nonneg h3 h4) hgt
  have h10 : 0 ≤ gp_services a := h5
  have h11 : 0 ≤ gp_total a := by unfold gp_total; linarith
  have h12 : 0 ≤ opex a := by unfold opex; linarith
  have h13 : ∀ i : Fin 12, 0 ≤ monthTurnover a i := by
    intro i
    unfold monthTurnover shares
    exact mul_nonneg
      (div_nonneg (le_of_lt (upl_pos hsummer hshoulder i))
        (le_of_lt (uplSum_pos hsummer hshoulder))) h6
  refine ⟨h1, h2, h3, h4, h5, h6, h7, h8, h9, h10, h11, h12, h13,
    lossMaking, ?_, ?_⟩
  · norm_num [Assumptions.Nonneg, lossMaking, allZeroInputs, defaults]
  · norm_num [op, gp_total, gp_shoes, gp_apparel, gp_tour, gp_services,
      rev_local_shoes, rev_local_apparel, rev_tourist_core, rev_events,
      rev_services, local_pairs_captured, local_pairs, runners, adults,
      opex, lossMaking, allZeroInputs, defaults]

/-- Witness for C8 at the defaults record. -/
theorem monetary_outputs_nonneg_witness :
    defaults.Nonneg
    ∧ (0 ≤ rev_local_shoes defaults ∧ 0 ≤ rev_local_apparel defaults
      ∧ 0 ≤ rev_tourist_core defaults ∧ 0 ≤ rev_events defaults
      ∧ 0 ≤ rev_services defaults ∧ 0 ≤ turnover defaults
      ∧ 0 ≤ gp_shoes defaults ∧ 0 ≤ gp_apparel defaults
      ∧ 0 ≤ gp_tour defaults ∧ 0 ≤ gp_services defaults
      ∧ 0 ≤ gp_total defaults ∧ 0 ≤ opex defaults
      ∧ (∀ i : Fin 12, 0 ≤ monthTurnover defaults i)
      ∧ (∃ b : Assumptions, b.Nonneg ∧ op b < 0)) :=
  ⟨by norm_num [Assumptions.Nonneg, defaults],
    monetary_outputs_nonneg defaults
      (by norm_num [Assumptions.Nonneg, defaults])⟩

/-- C9: the pipeline is deterministic — identical assumptions records
yield identical results records, with no hidden inputs (`compute` is a
function of the record alone). -/
theorem compute_deterministic (a b : Assumptions) (h : a = b) :
    compute a = compute b := by rw [h]

/-- Witness for C9 at the defaults record. -/
theorem compute_deterministic_witness :
    compute defaults = compute defaults :=
  compute_deterministic defaults defaults rfl

/-- C10: for every assumptions record with non-negative uplift
fractions, the twelve monthly turnover values sum to the annual
turnover — the allocation redistributes the total without gain or
loss. -/
theorem monthly_allocation_conserves_turnover (a : Assumptions)
    (h1 : 0 ≤ a.summer_uplift) (h2 : 0 ≤ a.shoulder_uplift) :
    ∑ i : Fin 12, monthTurnover a i = turnover a := by
  unfold monthTurnover
  rw [← Finset.sum_mul, shares_sum_one h1 h2, one_mul]

/-- Witness for C10 at the defaults record. -/
theorem monthly_allocation_conserves_turnover_witness :
    (0 ≤ defaults.summer_uplift ∧ 0 ≤ defaults.shoulder_uplift)
    ∧ ∑ i : Fin 12, monthTurnover defaults i = turnover defaults :=
  ⟨by norm_num [defaults],
    monthly_allocation_conserves_turnover defaults
      (by norm_num [defaults]) (by norm_num [defaults])⟩

end Cockermouth
